import Mathlib

/-!
Verification of the weather-map ingestion-and-archival pipeline.

Shallow embedding of the backend pipeline of the `weather-map-leaflet-js`
repository: the pure helpers (`helpers.js`), the archival-upsert repository
(`weatherRepository.js`), the retention cleaner (`cleanupHistory.js`), the
per-item port fetcher (`portWeatherCollector.js`), the batched grid fetcher
(`gridWeatherCollector.js`) and the orchestrator (`runAllCollectors.js`).

Modelling conventions:
* timestamps are milliseconds; `helpers.js` arithmetic on `Date` values is
  rendered over `ℚ` (freshness, which divides) or `Int` (store timestamps);
* the MongoDB store is explicit state: one list of current documents and one
  append-only list of history documents per collection;
* asynchronous calls that can reject are given their outcome as an explicit
  oracle argument (a resolved value or a thrown message), and a store insert
  that can throw is modelled by a boolean switch whose `false` value makes the
  embedded function return `none` (the thrown case).
-/

namespace WeatherMap

/- ===================== helpers.js ===================== -/

/-- Embeds `hoursSince` (helpers.js): `null` date gives `null`, otherwise the
millisecond difference `now - date` divided by `1000 * 60 * 60`. -/
def hoursSince (now : ℚ) (date : Option ℚ) : Option ℚ :=
  match date with
  | none => none
  | some d => some ((now - d) / (1000 * 60 * 60))

/-- Embeds `isDataFresh` (helpers.js): a missing `fetchedAt` is never fresh;
otherwise the data is fresh exactly when its age in hours is `≤ maxAgeHours`. -/
def isDataFresh (now : ℚ) (fetchedAt : Option ℚ) (maxAgeHours : ℚ) : Bool :=
  match fetchedAt with
  | none => false
  | some _ =>
    match hoursSince now fetchedAt with
    | none => false
    | some age => decide (age ≤ maxAgeHours)

/-- Loop body of `batchArray` (helpers.js): the JS loop pushes
`array.slice(i, i + size)` for `i = 0, size, 2*size, …` while `i < length`.
The loop counter is explicit and the fuel equals `array.length`; for
`size > 0` the loop runs at most `array.length` iterations so the fuel is
never exhausted (for `size = 0` the JS loop itself does not terminate). -/
def batchArrayGo (l : List α) (size : Nat) : Nat → Nat → List (List α)
  | _, 0 => []
  | i, fuel + 1 =>
    if i < l.length then ((l.drop i).take size) :: batchArrayGo l size (i + size) fuel
    else []

/-- Embeds `batchArray` (helpers.js). -/
def batchArray (l : List α) (size : Nat) : List (List α) :=
  batchArrayGo l size 0 l.length

/- ===================== weatherRepository.js: data model ===================== -/

/-- A current-collection weather document: identity key (`name` for cities,
`slug` for ports, the `(lat, lon)` pair for grid points), the provider-opaque
payload, and the repository-stamped `updated_at`. -/
structure WeatherDoc (K : Type) where
  key : K
  payload : Option String
  updated_at : Int
  deriving DecidableEq, Repr

/-- A history-collection document as built by the archive functions: the
superseded current document copied verbatim (`_id` stripped, not modelled)
plus the `archived_at` / `original_updated_at` stamps. -/
structure HistoryDoc (K : Type) where
  snap : WeatherDoc K
  archived_at : Int
  original_updated_at : Int
  deriving DecidableEq, Repr

/-- One class's slice of the store: the current collection and its history
collection. -/
structure Store (K : Type) where
  current : List (WeatherDoc K)
  history : List (HistoryDoc K)
  deriving DecidableEq, Repr

/-- A record handed to a save function: identity key plus payload; the save
functions stamp `updated_at` themselves. -/
structure NewSnap (K : Type) where
  key : K
  payload : Option String
  deriving DecidableEq, Repr

variable {K : Type} [DecidableEq K]

/- ===================== weatherRepository.js: operations ===================== -/

/-- Embeds `archiveCityWeather` (weatherRepository.js 337–353): find the
current documents whose key is in `cityNames`; when none match return count 0
without touching the store; otherwise copy each matched document into the
history collection stamped with `archived_at = now` and
`original_updated_at = doc.updated_at`. `insertOk = false` models the history
`insertMany` throwing, in which case the thrown error propagates (`none`). -/
def archiveCityWeather (st : Store K) (cityNames : List K) (now : Int)
    (insertOk : Bool) : Option (Store K × Nat) :=
  let currentData := st.current.filter (fun d => decide (d.key ∈ cityNames))
  if currentData.length = 0 then some (st, 0)
  else
    let historyDocs := currentData.map (fun d =>
      ({ snap := d, archived_at := now, original_updated_at := d.updated_at } : HistoryDoc K))
    if insertOk then
      some ({ st with history := st.history ++ historyDocs }, historyDocs.length)
    else none

/-- Embeds `archivePortWeather` (weatherRepository.js 383–399); the JS body is
identical to `archiveCityWeather` with `slug` as the identity field. -/
def archivePortWeather (st : Store K) (portSlugs : List K) (now : Int)
    (insertOk : Bool) : Option (Store K × Nat) :=
  let currentData := st.current.filter (fun d => decide (d.key ∈ portSlugs))
  if currentData.length = 0 then some (st, 0)
  else
    let historyDocs := currentData.map (fun d =>
      ({ snap := d, archived_at := now, original_updated_at := d.updated_at } : HistoryDoc K))
    if insertOk then
      some ({ st with history := st.history ++ historyDocs }, historyDocs.length)
    else none

/-- Embeds `archiveGridWeather` (weatherRepository.js 359–377): same as the
city/port archives except for the extra guard on an empty point list (the
`$or` filter over `(lat, lon)` pairs is key membership). -/
def archiveGridWeather (st : Store K) (gridPoints : List K) (now : Int)
    (insertOk : Bool) : Option (Store K × Nat) :=
  if gridPoints.length = 0 then some (st, 0)
  else
    let currentData := st.current.filter (fun d => decide (d.key ∈ gridPoints))
    if currentData.length = 0 then some (st, 0)
    else
      let historyDocs := currentData.map (fun d =>
        ({ snap := d, archived_at := now, original_updated_at := d.updated_at } : HistoryDoc K))
      if insertOk then
        some ({ st with history := st.history ++ historyDocs }, historyDocs.length)
      else none

/-- One MongoDB `updateOne` with `upsert: true` keyed on the identity field,
`$set`-ting every field of the new record: replaces the first stored document
whose key matches, or appends the record when none matches. -/
def upsertOne (cur : List (WeatherDoc K)) (d : WeatherDoc K) : List (WeatherDoc K) :=
  match cur with
  | [] => [d]
  | c :: rest => if c.key = d.key then d :: rest else c :: upsertOne rest d

/-- Embeds `saveCityWeatherData` (weatherRepository.js 112–137): empty input
returns immediately; otherwise the matching current documents are archived
first (a thrown archive insert aborts the whole save, `none`), then each new
record is upserted into the current collection with `updated_at = now` by an
ordered `bulkWrite` of `updateOne`-upserts. -/
def saveCityWeatherData (st : Store K) (data : List (NewSnap K)) (now : Int)
    (insertOk : Bool) : Option (Store K) :=
  if data.length = 0 then some st
  else
    match archiveCityWeather st (data.map NewSnap.key) now insertOk with
    | none => none
    | some (st1, _archivedCount) =>
      some { st1 with
        current := data.foldl
          (fun cur s => upsertOne cur { key := s.key, payload := s.payload, updated_at := now })
          st1.current }

/-- Embeds `savePortWeatherData` (weatherRepository.js 171–196); the JS body is
identical to `saveCityWeatherData` with `slug` as the identity field. -/
def savePortWeatherData (st : Store K) (data : List (NewSnap K)) (now : Int)
    (insertOk : Bool) : Option (Store K) :=
  if data.length = 0 then some st
  else
    match archivePortWeather st (data.map NewSnap.key) now insertOk with
    | none => none
    | some (st1, _archivedCount) =>
      some { st1 with
        current := data.foldl
          (fun cur s => upsertOne cur { key := s.key, payload := s.payload, updated_at := now })
          st1.current }

/-- Embeds `saveGridWeatherData` (weatherRepository.js 144–164): empty input
returns immediately; the current grid documents matching the new `(lat, lon)`
keys are archived first (a thrown archive insert aborts the save, `none`);
then `deleteMany({})` drops the whole current grid collection and `insertMany`
writes the new set with `updated_at = now`. -/
def saveGridWeatherData (st : Store K) (data : List (NewSnap K)) (now : Int)
    (insertOk : Bool) : Option (Store K) :=
  if data.length = 0 then some st
  else
    match archiveGridWeather st (data.map NewSnap.key) now insertOk with
    | none => none
    | some (st1, _archivedCount) =>
      some { st1 with
        current := data.map
          (fun s => ({ key := s.key, payload := s.payload, updated_at := now } : WeatherDoc K)) }

/- ===================== weatherRepository.js: cleanupOldHistory ===================== -/

/-- The three history collections the cleaner touches: city and port keyed by
name/slug strings, grid keyed by `(lat, lon)` pairs. -/
structure HistoryStores where
  city : List (HistoryDoc String)
  grid : List (HistoryDoc (Int × Int))
  port : List (HistoryDoc String)
  deriving DecidableEq, Repr

/-- The result object of `cleanupOldHistory`: per-class deleted counts and
their reported total. -/
structure CleanupCounts where
  city : Nat
  grid : Nat
  port : Nat
  total : Nat
  deriving DecidableEq, Repr

/-- Milliseconds per calendar day; `cutoffDate.setDate(getDate() - daysToKeep)`
is rendered as `now - daysToKeep * msPerDay`. -/
def msPerDay : Int := 86400000

/-- Embeds `cleanupOldHistory` (weatherRepository.js 491–507): compute the
cutoff `daysToKeep` days before `now`, `deleteMany` every history record with
`archived_at < cutoff` in each of the three history collections, and report
the per-class deleted counts plus their sum. -/
def cleanupOldHistory (now : Int) (daysToKeep : Int) (st : HistoryStores) :
    HistoryStores × CleanupCounts :=
  let cutoffDate := now - daysToKeep * msPerDay
  let cityDeleted := st.city.countP (fun h => decide (h.archived_at < cutoffDate))
  let gridDeleted := st.grid.countP (fun h => decide (h.archived_at < cutoffDate))
  let portDeleted := st.port.countP (fun h => decide (h.archived_at < cutoffDate))
  ({ city := st.city.filter (fun h => !decide (h.archived_at < cutoffDate)),
     grid := st.grid.filter (fun h => !decide (h.archived_at < cutoffDate)),
     port := st.port.filter (fun h => !decide (h.archived_at < cutoffDate)) },
   { city := cityDeleted, grid := gridDeleted, port := portDeleted,
     total := cityDeleted + gridDeleted + portDeleted })

/- ===================== portWeatherCollector.js ===================== -/

/-- A port location record as produced by `loadPortData`. -/
structure Port where
  name : String
  slug : String
  lat : ℚ
  lon : ℚ
  deriving DecidableEq, Repr

/-- Outcome of one `axios.get` call for a port: a resolved response with its
HTTP status and (optional, `none` = falsy) body, or a rejection (transport
error, timeout, or a status the HTTP client rejects) with its message. -/
inductive ProviderResult where
  | resolved (status : Nat) (data : Option String)
  | rejected (msg : String)
  deriving DecidableEq, Repr

/-- The per-port snapshot document built by `fetchPortWeather`. -/
structure PortSnapshot where
  port_name : String
  slug : String
  lat : ℚ
  lon : ℚ
  weather_data : Option String
  fetched_at : Int
  status : String
  error : Option String
  deriving DecidableEq, Repr

/-- Embeds `fetchPortWeather` (portWeatherCollector.js 103–143): a resolved
response with status exactly 200 and truthy data yields a `success` snapshot
carrying the body; any other resolved response yields a `failed` snapshot with
`weather_data = null` and error text `HTTP <status>`; a rejected call is
caught and yields an `error` snapshot with the thrown message. -/
def fetchPortWeather (port : Port) (response : ProviderResult) (now : Int) :
    PortSnapshot :=
  match response with
  | .resolved s d =>
    if s = 200 ∧ d.isSome then
      { port_name := port.name, slug := port.slug, lat := port.lat, lon := port.lon,
        weather_data := d, fetched_at := now, status := "success", error := none }
    else
      { port_name := port.name, slug := port.slug, lat := port.lat, lon := port.lon,
        weather_data := none, fetched_at := now, status := "failed",
        error := some ("HTTP " ++ toString s) }
  | .rejected m =>
    { port_name := port.name, slug := port.slug, lat := port.lat, lon := port.lon,
      weather_data := none, fetched_at := now, status := "error", error := some m }

/-- The sequential per-port loop of `main` (portWeatherCollector.js 197–220):
one `fetchPortWeather` call per port, every result pushed onto `results`;
`provider` is the oracle giving each call's outcome. -/
def collectPortWeather (ports : List Port) (provider : Port → ProviderResult)
    (now : Int) : List PortSnapshot :=
  ports.map (fun p => fetchPortWeather p (provider p) now)

/- ===================== gridWeatherCollector.js ===================== -/

/-- A grid location record as produced by `loadGridCoordinates`. -/
structure GridLoc where
  name : String
  lat : ℚ
  lon : ℚ
  deriving DecidableEq, Repr

/-- One element of the provider's response array: whether its `current`
sub-object is present (truthy) and the opaque content kept from it. -/
structure ApiItem where
  hasCurrent : Bool
  payload : String
  deriving DecidableEq, Repr

/-- Outcome of the batched `axios.get`: a resolved response whose body is an
array of per-location items (`none` models a body that is not an array), or a
rejected call with its message. -/
inductive AxiosBatchOutcome where
  | ok (data : Option (List ApiItem))
  | err (msg : String)
  deriving DecidableEq, Repr

/-- A processed grid row built by `fetchWeatherDataBatch`: identity from the
submitted location, weather content from the response item. -/
structure GridRow where
  name : String
  lat : ℚ
  lon : ℚ
  payload : String
  fetched_at : Int
  deriving DecidableEq, Repr

/-- Embeds `fetchWeatherDataBatch` (gridWeatherCollector.js 70–135): empty
input gives `[]`; a rejected call is caught, logged and gives `[]`; a body
that is not an array gives `[]`; otherwise response items are paired with the
submitted locations index by index (`i < data.length && i < locations.length`,
so only the common prefix is kept) and each item with a truthy `current`
yields one row. -/
def fetchWeatherDataBatch (locations : List GridLoc) (resp : AxiosBatchOutcome)
    (now : Int) : List GridRow :=
  if locations.length = 0 then []
  else
    match resp with
    | .err _ => []
    | .ok none => []
    | .ok (some items) =>
      (items.zip locations).filterMap (fun pair =>
        if pair.1.hasCurrent then
          some { name := pair.2.name, lat := pair.2.lat, lon := pair.2.lon,
                 payload := pair.1.payload, fetched_at := now }
        else none)

/-- Outcome of one attempt of the awaited batch fetch inside the retry loop of
`fetchWeatherDataBatched`: a resolved row list, or a thrown error message. -/
inductive AttemptOutcome where
  | result (rows : List GridRow)
  | thrown (msg : String)
  deriving DecidableEq, Repr

/-- Error classification of the retry loop (gridWeatherCollector.js 193–194):
the lower-cased message contains `rate limit` or `minutely`; the JS
`toLowerCase()` is rendered character by character. -/
def isRateLimitError (msg : String) : Bool :=
  let m := msg.toList.map Char.toLower
  decide ("rate limit".toList <:+: m) || decide ("minutely".toList <:+: m)

/-- Observable trace of one batch's retry loop: the successful row list when
one attempt returned a non-empty result (`none` = the batch was dropped), the
backoff sleeps performed in order, and the number of attempts issued. -/
structure RetryTrace where
  result : Option (List GridRow)
  sleeps : List Nat
  attempts : Nat
  deriving DecidableEq, Repr

/-- The per-batch retry loop of `fetchWeatherDataBatched`
(gridWeatherCollector.js 167–206): up to `remaining` attempts; a non-empty
resolved result is kept and stops the loop; an empty resolved result is logged
as a failed attempt and retried immediately; a thrown error whose message
signals rate-limiting sleeps `retryDelay` and doubles it before the next
attempt; any other thrown error is logged and retried with no sleep. -/
def runBatchRetriesGo (attempt : Nat → AttemptOutcome) :
    Nat → Nat → Nat → RetryTrace
  | _, 0, _ => { result := none, sleeps := [], attempts := 0 }
  | retry, remaining + 1, retryDelay =>
    match attempt retry with
    | .result rows =>
      if rows.length ≠ 0 then { result := some rows, sleeps := [], attempts := 1 }
      else
        let t := runBatchRetriesGo attempt (retry + 1) remaining retryDelay
        { result := t.result, sleeps := t.sleeps, attempts := t.attempts + 1 }
    | .thrown msg =>
      if isRateLimitError msg then
        let t := runBatchRetriesGo attempt (retry + 1) remaining (retryDelay * 2)
        { result := t.result, sleeps := retryDelay :: t.sleeps, attempts := t.attempts + 1 }
      else
        let t := runBatchRetriesGo attempt (retry + 1) remaining retryDelay
        { result := t.result, sleeps := t.sleeps, attempts := t.attempts + 1 }

/-- The retry loop started as in the source: first attempt index 0,
`maxRetries` attempts, initial `retryDelay = 60000` ms. -/
def runBatchRetries (attempt : Nat → AttemptOutcome) (maxRetries : Nat) :
    RetryTrace :=
  runBatchRetriesGo attempt 0 maxRetries 60000

/-- Embeds the batch loop of `fetchWeatherDataBatched`
(gridWeatherCollector.js 140–223): partition the locations with `batchArray`,
run the retry loop for each batch in order (`attempt i r` is the outcome of
attempt `r` on batch `i`), append the rows of each successful batch to the
accumulated output, and keep going after a dropped batch. -/
def fetchWeatherDataBatched (locations : List GridLoc) (batchSize : Nat)
    (maxRetries : Nat) (attempt : Nat → Nat → AttemptOutcome) : List GridRow :=
  (List.range (batchArray locations batchSize).length).foldl
    (fun acc i =>
      match (runBatchRetries (attempt i) maxRetries).result with
      | some rows => acc ++ rows
      | none => acc)
    []

/- ===================== runAllCollectors.js ===================== -/

/-- Loop body of `retryWithBackoff` (helpers.js 170–184), specialised to the
orchestrator's use where the wrapped function throws exactly when the
collector's exit code is non-zero. `outcome a` is the exit code of attempt
`a` (attempts are numbered from 1); on failure of attempt `a < maxRetries`
the loop sleeps `baseDelay * 2 ^ (a - 1)` and retries; failure of the last
attempt rethrows. Returns overall success and the sleeps performed. -/
def retryWithBackoffGo (outcome : Nat → Nat) (baseDelay : Nat) :
    Nat → Nat → Bool × List Nat
  | _, 0 => (false, [])
  | attempt, remaining + 1 =>
    if outcome attempt = 0 then (true, [])
    else if remaining = 0 then (false, [])
    else
      let r := retryWithBackoffGo outcome baseDelay (attempt + 1) remaining
      (r.1, baseDelay * 2 ^ (attempt - 1) :: r.2)

/-- Embeds `retryWithBackoff` (helpers.js 170–184) as used by the
orchestrator. -/
def retryWithBackoff (outcome : Nat → Nat) (maxRetries : Nat) (baseDelay : Nat) :
    Bool × List Nat :=
  retryWithBackoffGo outcome baseDelay 1 maxRetries

/-- Embeds `runCollectorWithRetry` (runAllCollectors.js 21–42): the collector
flow wrapped in `retryWithBackoff` with a 5000 ms base delay; returns `true`
on eventual success, `false` after the retries are exhausted. -/
def runCollectorWithRetry (outcome : Nat → Nat) (maxRetries : Nat) :
    Bool × List Nat :=
  retryWithBackoff outcome maxRetries 5000

/-- The orchestrator's collector list (runAllCollectors.js 12–16). -/
def collectorNames : List String :=
  ["City Weather", "Grid Weather", "Port Weather"]

/-- Observable outcome of one orchestrator run: the per-class report in run
order, the inter-class pauses performed, and the process exit code. -/
structure OrchestratorRun where
  results : List (String × Bool)
  pauses : List Nat
  exitCode : Nat
  deriving DecidableEq, Repr

/-- Embeds `main` of runAllCollectors.js (47–110): run the three collectors
strictly in order (`outcome i a` is the exit code of attempt `a` of collector
`i`), pausing 5000 ms after every collector but the last, record one
per-class result each, and exit 0 exactly when the number of successes equals
the number of collectors. -/
def runAllCollectors (outcome : Nat → Nat → Nat) (maxRetries : Nat) :
    OrchestratorRun :=
  let results := collectorNames.enum.map
    (fun pair => (pair.2, (runCollectorWithRetry (outcome pair.1) maxRetries).1))
  let pauses := (List.range (collectorNames.length - 1)).map (fun _ => 5000)
  let successCount := (results.filter (fun r => r.2)).length
  { results := results, pauses := pauses,
    exitCode := if successCount = results.length then 0 else 1 }

/- ===================== lemmas: batchArray ===================== -/

theorem batchArrayGo_join {α : Type} (l : List α) (size : Nat) (hs : 0 < size) :
    ∀ fuel i, l.length ≤ i + fuel → (batchArrayGo l size i fuel).flatten = l.drop i := by
  intro fuel
  induction fuel with
  | zero =>
    intro i h
    simp only [batchArrayGo, List.flatten]
    exact (List.drop_eq_nil_of_le (by omega)).symm
  | succ fuel ih =>
    intro i h
    by_cases hi : i < l.length
    · simp only [batchArrayGo, if_pos hi, List.flatten_cons]
      rw [ih (i + size) (by omega)]
      calc (l.drop i).take size ++ l.drop (i + size)
          = (l.drop i).take size ++ (l.drop i).drop size := by
            rw [List.drop_drop]
        _ = l.drop i := List.take_append_drop size (l.drop i)
    · simp only [batchArrayGo, if_neg hi, List.flatten]
      exact (List.drop_eq_nil_of_le (by omega)).symm

theorem batchArrayGo_length {α : Type} (l : List α) (size : Nat) (hs : 0 < size) :
    ∀ fuel i, l.length ≤ i + fuel →
      (batchArrayGo l size i fuel).length = (l.length - i + size - 1) / size := by
  intro fuel
  induction fuel with
  | zero =>
    intro i h
    have h0 : l.length - i = 0 := by omega
    simp only [batchArrayGo, List.length_nil, h0]
    exact (Nat.div_eq_of_lt (by omega)).symm
  | succ fuel ih =>
    intro i h
    by_cases hi : i < l.length
    · simp only [batchArrayGo, if_pos hi, List.length_cons]
      rw [ih (i + size) (by omega)]
      have h1 : l.length - (i + size) = l.length - i - size := by omega
      rw [h1]
      have hn : 1 ≤ l.length - i := by omega
      rcases le_or_lt (l.length - i) size with hle | hlt
      · have e1 : l.length - i - size = 0 := by omega
        have e2 : l.length - i + size - 1 = (l.length - i - 1) + size := by omega
        rw [e1, e2, Nat.div_eq_of_lt (by omega), Nat.add_div_right _ hs,
          Nat.div_eq_of_lt (by omega)]
      · have e2 : l.length - i - size + size - 1 = (l.length - i - size - 1) + size := by
          omega
        have e3 : l.length - i + size - 1 = ((l.length - i - size - 1) + size) + size := by
          omega
        rw [e2, e3, Nat.add_div_right _ hs, Nat.add_div_right _ hs, Nat.add_div_right _ hs]
    · have h0 : l.length - i = 0 := by omega
      simp only [batchArrayGo, if_neg hi, List.length_nil, h0]
      exact (Nat.div_eq_of_lt (by omega)).symm

/- ===================== lemmas: filter and count ===================== -/

theorem countP_add_length_filter_not {α : Type} (p : α → Bool) (l : List α) :
    l.countP p + (l.filter fun a => !p a).length = l.length := by
  induction l with
  | nil => rfl
  | cons a t ih =>
    cases h : p a <;> simp [List.countP_cons, List.filter_cons, h] <;> omega

theorem filter_not_filter_not {α : Type} (p : α → Bool) (l : List α) :
    (l.filter fun a => !p a).filter (fun a => !p a) = l.filter fun a => !p a := by
  induction l with
  | nil => rfl
  | cons a t ih =>
    cases h : p a <;> simp [List.filter_cons, h, ih]

theorem countP_filter_not {α : Type} (p : α → Bool) (l : List α) :
    (l.filter fun a => !p a).countP p = 0 := by
  induction l with
  | nil => rfl
  | cons a t ih =>
    cases h : p a <;> simp [List.filter_cons, List.countP_cons, h, ih]

/- ===================== claim C7 ===================== -/

/-- C7 (batch partition round-trip): for every location list and every batch
size `B > 0`, `batchArray` produces exactly `⌈N/B⌉` batches — written here as
`(N + B - 1) / B` in truncating natural division — and their in-order
concatenation reconstructs the original list exactly. -/
theorem batchArray_partition {α : Type} (l : List α) (size : Nat) (hs : 0 < size) :
    (batchArray l size).length = (l.length + size - 1) / size ∧
    (batchArray l size).flatten = l := by
  constructor
  · have h := batchArrayGo_length l size hs l.length 0 (by omega)
    simpa [batchArray] using h
  · have h := batchArrayGo_join l size hs l.length 0 (by omega)
    simpa [batchArray] using h

/-- Witness for C7 at a five-element list with batch size 2: three batches
that concatenate back to the input. -/
theorem batchArray_partition_witness :
    (batchArray [0, 1, 2, 3, 4] 2).length = ([0, 1, 2, 3, 4].length + 2 - 1) / 2 ∧
    (batchArray [0, 1, 2, 3, 4] 2).flatten = [0, 1, 2, 3, 4] :=
  batchArray_partition [0, 1, 2, 3, 4] 2 (by decide)

/- ===================== claim C4 ===================== -/

/-- C4 (freshness gate): `isDataFresh` returns `false` when `fetchedAt` is
absent, and returns `false` whenever the age `(now - fetchedAt) / (1000*60*60)`
in hours exceeds `maxAgeHours`; as embedded it is a pure predicate of the
timestamp and the threshold. -/
theorem isDataFresh_freshness_gate :
    (∀ now maxAgeHours : ℚ, isDataFresh now none maxAgeHours = false) ∧
    (∀ now t maxAgeHours : ℚ,
      maxAgeHours < (now - t) / (1000 * 60 * 60) →
      isDataFresh now (some t) maxAgeHours = false) := by
  constructor
  · intro now m
    rfl
  · intro now t m h
    simp only [isDataFresh, hoursSince, decide_eq_false_iff_not, not_le]
    exact h

/-- Witness for C4: data fetched 10 hours ago (36000000 ms) is not fresh for a
5-hour threshold, and absent data is never fresh. -/
theorem isDataFresh_freshness_gate_witness :
    isDataFresh 36000000 (some 0) 5 = false ∧ isDataFresh 36000000 none 5 = false :=
  ⟨isDataFresh_freshness_gate.2 36000000 0 5 (by norm_num),
   isDataFresh_freshness_gate.1 36000000 5⟩

/- ===================== claim C5 ===================== -/

/-- C5 (retention cleanup contract): `cleanupOldHistory` keeps exactly the
history records with `archived_at` not strictly before `now - daysToKeep`
days (so it deletes exactly those strictly before the cutoff), in each of the
three classes; each class's deleted count plus its kept count is that class's
original size, and the reported total is the sum of the three per-class
counts.  The last conjunct is the claim's concrete scenario: records archived
at day −100, −50, −10 with `daysToKeep = 90` leave the −50 and −10 records. -/
theorem cleanupOldHistory_retention (now daysToKeep : Int) (st : HistoryStores) :
    (∀ h, h ∈ (cleanupOldHistory now daysToKeep st).1.city ↔
      h ∈ st.city ∧ ¬ h.archived_at < now - daysToKeep * msPerDay) ∧
    (∀ h, h ∈ (cleanupOldHistory now daysToKeep st).1.grid ↔
      h ∈ st.grid ∧ ¬ h.archived_at < now - daysToKeep * msPerDay) ∧
    (∀ h, h ∈ (cleanupOldHistory now daysToKeep st).1.port ↔
      h ∈ st.port ∧ ¬ h.archived_at < now - daysToKeep * msPerDay) ∧
    ((cleanupOldHistory now daysToKeep st).2.city +
      (cleanupOldHistory now daysToKeep st).1.city.length = st.city.length) ∧
    ((cleanupOldHistory now daysToKeep st).2.grid +
      (cleanupOldHistory now daysToKeep st).1.grid.length = st.grid.length) ∧
    ((cleanupOldHistory now daysToKeep st).2.port +
      (cleanupOldHistory now daysToKeep st).1.port.length = st.port.length) ∧
    ((cleanupOldHistory now daysToKeep st).2.total =
      (cleanupOldHistory now daysToKeep st).2.city +
      (cleanupOldHistory now daysToKeep st).2.grid +
      (cleanupOldHistory now daysToKeep st).2.port) ∧
    (cleanupOldHistory (200 * msPerDay) 90
      ⟨[⟨⟨"a", none, 0⟩, 100 * msPerDay, 0⟩, ⟨⟨"b", none, 0⟩, 150 * msPerDay, 0⟩,
        ⟨⟨"c", none, 0⟩, 190 * msPerDay, 0⟩], [], []⟩).1.city =
      [⟨⟨"b", none, 0⟩, 150 * msPerDay, 0⟩, ⟨⟨"c", none, 0⟩, 190 * msPerDay, 0⟩] := by
  refine ⟨?_, ?_, ?_, ?_, ?_, ?_, rfl, by decide⟩
  · intro h
    simp [cleanupOldHistory, List.mem_filter]
  · intro h
    simp [cleanupOldHistory, List.mem_filter]
  · intro h
    simp [cleanupOldHistory, List.mem_filter]
  · exact countP_add_length_filter_not _ st.city
  · exact countP_add_length_filter_not _ st.grid
  · exact countP_add_length_filter_not _ st.port

/- ===================== claim C6 ===================== -/

/-- C6 (retention cleanup idempotence): running `cleanupOldHistory` twice with
the same `now` and `daysToKeep` deletes each eligible record only once — the
second run reports zero deletions in every class and leaves the store
unchanged. -/
theorem cleanupOldHistory_idempotent (now daysToKeep : Int) (st : HistoryStores) :
    cleanupOldHistory now daysToKeep (cleanupOldHistory now daysToKeep st).1 =
      ((cleanupOldHistory now daysToKeep st).1,
       { city := 0, grid := 0, port := 0, total := 0 }) := by
  simp only [cleanupOldHistory, Prod.mk.injEq, HistoryStores.mk.injEq,
    CleanupCounts.mk.injEq]
  refine ⟨⟨?_, ?_, ?_⟩, ?_, ?_, ?_, ?_⟩
  · exact filter_not_filter_not _ st.city
  · exact filter_not_filter_not _ st.grid
  · exact filter_not_filter_not _ st.port
  · exact countP_filter_not _ st.city
  · exact countP_filter_not _ st.grid
  · exact countP_filter_not _ st.port
  · simp [countP_filter_not]

/- ===================== lemmas: archive and save ===================== -/

theorem archiveCityWeather_ok_eq (st : Store K) (names : List K) (now : Int) :
    archiveCityWeather st names now true =
      some ({ current := st.current,
              history := st.history ++
                (st.current.filter (fun d => decide (d.key ∈ names))).map
                  (fun d => { snap := d, archived_at := now,
                              original_updated_at := d.updated_at }) },
            (st.current.filter (fun d => decide (d.key ∈ names))).length) := by
  unfold archiveCityWeather
  by_cases h : (st.current.filter (fun d => decide (d.key ∈ names))).length = 0
  · have he : st.current.filter (fun d => decide (d.key ∈ names)) = [] :=
      List.length_eq_zero.mp h
    simp [h, he]
  · simp [h]

theorem archivePortWeather_ok_eq (st : Store K) (slugs : List K) (now : Int) :
    archivePortWeather st slugs now true =
      some ({ current := st.current,
              history := st.history ++
                (st.current.filter (fun d => decide (d.key ∈ slugs))).map
                  (fun d => { snap := d, archived_at := now,
                              original_updated_at := d.updated_at }) },
            (st.current.filter (fun d => decide (d.key ∈ slugs))).length) := by
  unfold archivePortWeather
  by_cases h : (st.current.filter (fun d => decide (d.key ∈ slugs))).length = 0
  · have he : st.current.filter (fun d => decide (d.key ∈ slugs)) = [] :=
      List.length_eq_zero.mp h
    simp [h, he]
  · simp [h]

theorem archiveGridWeather_ok_eq (st : Store K) (points : List K) (now : Int)
    (hp : points ≠ []) :
    archiveGridWeather st points now true =
      some ({ current := st.current,
              history := st.history ++
                (st.current.filter (fun d => decide (d.key ∈ points))).map
                  (fun d => { snap := d, archived_at := now,
                              original_updated_at := d.updated_at }) },
            (st.current.filter (fun d => decide (d.key ∈ points))).length) := by
  unfold archiveGridWeather
  rw [if_neg (by simpa [List.length_eq_zero] using hp)]
  by_cases h : (st.current.filter (fun d => decide (d.key ∈ points))).length = 0
  · have he : st.current.filter (fun d => decide (d.key ∈ points)) = [] :=
      List.length_eq_zero.mp h
    simp [h, he]
  · simp [h]

theorem archiveCityWeather_throw (st : Store K) (names : List K) (now : Int)
    (h : ∃ d ∈ st.current, d.key ∈ names) :
    archiveCityWeather st names now false = none := by
  unfold archiveCityWeather
  obtain ⟨d, hd, hk⟩ := h
  have hm : d ∈ st.current.filter (fun d => decide (d.key ∈ names)) :=
    List.mem_filter.mpr ⟨hd, by simpa⟩
  have hne : (st.current.filter (fun d => decide (d.key ∈ names))).length ≠ 0 := by
    have := List.length_pos.mpr (List.ne_nil_of_mem hm)
    omega
  simp [hne]

theorem saveCityWeatherData_ok_eq (st : Store K) (data : List (NewSnap K))
    (now : Int) (h : data ≠ []) :
    saveCityWeatherData st data now true =
      some { current := data.foldl
               (fun cur s => upsertOne cur
                 { key := s.key, payload := s.payload, updated_at := now })
               st.current,
             history := st.history ++
               (st.current.filter (fun d => decide (d.key ∈ data.map NewSnap.key))).map
                 (fun d => { snap := d, archived_at := now,
                             original_updated_at := d.updated_at }) } := by
  unfold saveCityWeatherData
  rw [if_neg (by simpa [List.length_eq_zero] using h), archiveCityWeather_ok_eq]

theorem savePortWeatherData_ok_eq (st : Store K) (data : List (NewSnap K))
    (now : Int) (h : data ≠ []) :
    savePortWeatherData st data now true =
      some { current := data.foldl
               (fun cur s => upsertOne cur
                 { key := s.key, payload := s.payload, updated_at := now })
               st.current,
             history := st.history ++
               (st.current.filter (fun d => decide (d.key ∈ data.map NewSnap.key))).map
                 (fun d => { snap := d, archived_at := now,
                             original_updated_at := d.updated_at }) } := by
  unfold savePortWeatherData
  rw [if_neg (by simpa [List.length_eq_zero] using h), archivePortWeather_ok_eq]

theorem saveGridWeatherData_ok_eq (st : Store K) (data : List (NewSnap K))
    (now : Int) (h : data ≠ []) :
    saveGridWeatherData st data now true =
      some { current := data.map
               (fun s => ({ key := s.key, payload := s.payload,
                            updated_at := now } : WeatherDoc K)),
             history := st.history ++
               (st.current.filter (fun d => decide (d.key ∈ data.map NewSnap.key))).map
                 (fun d => { snap := d, archived_at := now,
                             original_updated_at := d.updated_at }) } := by
  unfold saveGridWeatherData
  rw [if_neg (by simpa [List.length_eq_zero] using h),
    archiveGridWeather_ok_eq st _ now (by simpa using h)]

/- ===================== lemmas: upsertOne ===================== -/

theorem mem_upsertOne_of_ne (cur : List (WeatherDoc K)) (e d : WeatherDoc K)
    (hd : d ∈ cur) (hne : d.key ≠ e.key) : d ∈ upsertOne cur e := by
  induction cur with
  | nil => cases hd
  | cons c rest ih =>
    unfold upsertOne
    rcases List.mem_cons.mp hd with rfl | hd
    · rw [if_neg (fun hc => hne hc)]
      exact List.mem_cons_self _ _
    · by_cases hc : c.key = e.key
      · rw [if_pos hc]
        exact List.mem_cons_of_mem _ hd
      · rw [if_neg hc]
        exact List.mem_cons_of_mem _ (ih hd)

theorem self_mem_upsertOne (cur : List (WeatherDoc K)) (e : WeatherDoc K) :
    e ∈ upsertOne cur e := by
  induction cur with
  | nil => exact List.mem_cons_self _ _
  | cons c rest ih =>
    unfold upsertOne
    by_cases hc : c.key = e.key
    · rw [if_pos hc]
      exact List.mem_cons_self _ _
    · rw [if_neg hc]
      exact List.mem_cons_of_mem _ ih

theorem mem_of_mem_upsertOne (cur : List (WeatherDoc K)) (e d : WeatherDoc K)
    (h : d ∈ upsertOne cur e) : d = e ∨ d ∈ cur := by
  induction cur with
  | nil => simpa [upsertOne] using h
  | cons c rest ih =>
    unfold upsertOne at h
    by_cases hc : c.key = e.key
    · rw [if_pos hc] at h
      rcases List.mem_cons.mp h with rfl | h
      · exact Or.inl rfl
      · exact Or.inr (List.mem_cons_of_mem _ h)
    · rw [if_neg hc] at h
      rcases List.mem_cons.mp h with rfl | h
      · exact Or.inr (List.mem_cons_self _ _)
      · rcases ih h with h' | h'
        · exact Or.inl h'
        · exact Or.inr (List.mem_cons_of_mem _ h')

theorem key_mem_upsertOne (cur : List (WeatherDoc K)) (e : WeatherDoc K) (k : K)
    (h : k ∈ (upsertOne cur e).map WeatherDoc.key) :
    k = e.key ∨ k ∈ cur.map WeatherDoc.key := by
  obtain ⟨d, hd, rfl⟩ := List.mem_map.mp h
  rcases mem_of_mem_upsertOne cur e d hd with rfl | hd'
  · exact Or.inl rfl
  · exact Or.inr (List.mem_map.mpr ⟨d, hd', rfl⟩)

theorem nodup_keys_upsertOne (cur : List (WeatherDoc K)) (e : WeatherDoc K)
    (h : (cur.map WeatherDoc.key).Nodup) :
    ((upsertOne cur e).map WeatherDoc.key).Nodup := by
  induction cur with
  | nil => simp [upsertOne]
  | cons c rest ih =>
    rw [List.map_cons, List.nodup_cons] at h
    unfold upsertOne
    by_cases hc : c.key = e.key
    · rw [if_pos hc, List.map_cons, List.nodup_cons]
      exact ⟨hc ▸ h.1, h.2⟩
    · rw [if_neg hc, List.map_cons, List.nodup_cons]
      refine ⟨fun hmem => ?_, ih h.2⟩
      rcases key_mem_upsertOne rest e c.key hmem with h' | h'
      · exact hc h'
      · exact h.1 h'

theorem eq_of_mem_upsertOne_key (cur : List (WeatherDoc K)) (e d : WeatherDoc K)
    (hnd : (cur.map WeatherDoc.key).Nodup) (h : d ∈ upsertOne cur e)
    (hk : d.key = e.key) : d = e := by
  induction cur with
  | nil => simpa [upsertOne] using h
  | cons c rest ih =>
    rw [List.map_cons, List.nodup_cons] at hnd
    unfold upsertOne at h
    by_cases hc : c.key = e.key
    · rw [if_pos hc] at h
      rcases List.mem_cons.mp h with rfl | h
      · rfl
      · exact absurd (List.mem_map.mpr ⟨d, h, hk.trans hc.symm⟩) hnd.1
    · rw [if_neg hc] at h
      rcases List.mem_cons.mp h with rfl | h
      · exact absurd hk hc
      · exact ih hnd.2 h

theorem mem_foldl_upsertOne_of_notkey (ds : List (WeatherDoc K)) :
    ∀ (cur : List (WeatherDoc K)) (d : WeatherDoc K), d ∈ cur →
      (∀ e ∈ ds, d.key ≠ e.key) → d ∈ ds.foldl upsertOne cur := by
  induction ds with
  | nil => intro cur d hd _; exact hd
  | cons e es ih =>
    intro cur d hd hk
    rw [List.foldl_cons]
    exact ih (upsertOne cur e) d
      (mem_upsertOne_of_ne cur e d hd (hk e (List.mem_cons_self _ _)))
      (fun f hf => hk f (List.mem_cons_of_mem _ hf))

theorem mem_cur_of_mem_foldl_upsertOne (ds : List (WeatherDoc K)) :
    ∀ (cur : List (WeatherDoc K)) (d : WeatherDoc K),
      d ∈ ds.foldl upsertOne cur → (∀ e ∈ ds, d.key ≠ e.key) → d ∈ cur := by
  induction ds with
  | nil => intro cur d hd _; exact hd
  | cons e es ih =>
    intro cur d hd hk
    rw [List.foldl_cons] at hd
    have := ih (upsertOne cur e) d hd (fun f hf => hk f (List.mem_cons_of_mem _ hf))
    rcases mem_of_mem_upsertOne cur e d this with rfl | h
    · exact absurd rfl (hk d (List.mem_cons_self _ _))
    · exact h

theorem mem_ds_of_mem_foldl_upsertOne (ds : List (WeatherDoc K)) :
    ∀ (cur : List (WeatherDoc K)) (d : WeatherDoc K),
      (cur.map WeatherDoc.key).Nodup → d ∈ ds.foldl upsertOne cur →
      d.key ∈ ds.map WeatherDoc.key → d ∈ ds := by
  induction ds with
  | nil => intro _ _ _ _ hk; cases hk
  | cons e es ih =>
    intro cur d hnd hd hk
    rw [List.foldl_cons] at hd
    by_cases hke : d.key ∈ es.map WeatherDoc.key
    · exact List.mem_cons_of_mem _
        (ih (upsertOne cur e) d (nodup_keys_upsertOne cur e hnd) hd hke)
    · have hkeq : d.key = e.key := by
        rcases (by simpa using hk : d.key = e.key ∨ ∃ a ∈ es, a.key = d.key) with
          h' | ⟨a, ha, ha'⟩
        · exact h'
        · exact absurd (List.mem_map.mpr ⟨a, ha, ha'⟩) hke
      have hall : ∀ f ∈ es, d.key ≠ f.key := by
        intro f hf hcon
        exact hke (hcon ▸ List.mem_map.mpr ⟨f, hf, rfl⟩)
      have hmem : d ∈ upsertOne cur e := mem_cur_of_mem_foldl_upsertOne es _ d hd hall
      rw [eq_of_mem_upsertOne_key cur e d hnd hmem hkeq]
      exact List.mem_cons_self _ _

theorem foldl_upsertOne_key_stable (ds : List (WeatherDoc K))
    (Q : WeatherDoc K → Prop) (hQ : ∀ e ∈ ds, Q e) :
    ∀ (cur : List (WeatherDoc K)) (k : K),
      (∃ d ∈ cur, d.key = k ∧ Q d) →
      ∃ d ∈ ds.foldl upsertOne cur, d.key = k ∧ Q d := by
  induction ds with
  | nil => intro cur k h; exact h
  | cons e es ih =>
    intro cur k h
    obtain ⟨d, hd, hk, hQd⟩ := h
    rw [List.foldl_cons]
    by_cases hek : e.key = k
    · exact ih (fun f hf => hQ f (List.mem_cons_of_mem _ hf)) (upsertOne cur e) k
        ⟨e, self_mem_upsertOne cur e, hek, hQ e (List.mem_cons_self _ _)⟩
    · exact ih (fun f hf => hQ f (List.mem_cons_of_mem _ hf)) (upsertOne cur e) k
        ⟨d, mem_upsertOne_of_ne cur e d hd (fun hc => hek (hc.symm.trans hk)), hk, hQd⟩

theorem foldl_upsertOne_key_present (ds : List (WeatherDoc K))
    (Q : WeatherDoc K → Prop) (hQ : ∀ e ∈ ds, Q e) :
    ∀ (cur : List (WeatherDoc K)) (e : WeatherDoc K), e ∈ ds →
      ∃ d ∈ ds.foldl upsertOne cur, d.key = e.key ∧ Q d := by
  induction ds with
  | nil => intro _ _ h; cases h
  | cons f es ih =>
    intro cur e he
    rw [List.foldl_cons]
    rcases List.mem_cons.mp he with rfl | he
    · exact foldl_upsertOne_key_stable es Q
        (fun g hg => hQ g (List.mem_cons_of_mem _ hg)) (upsertOne cur e) e.key
        ⟨e, self_mem_upsertOne cur e, rfl, hQ e (List.mem_cons_self _ _)⟩
    · exact ih (fun g hg => hQ g (List.mem_cons_of_mem _ hg)) (upsertOne cur f) e he

/- ===================== claim C1 ===================== -/

/-- C1 (archive-before-write ordering): for every save with a non-empty
snapshot list, every currently stored snapshot matching a new snapshot's
identity key is copied verbatim into the history log of the resulting store
(so after two writes to the same key the history holds the first snapshot,
and the history is never empty when a prior snapshot existed); and if the
archival insert throws, the save aborts returning `none`, before any write to
the current collection. -/
theorem saveCityWeatherData_archive_before_write (st : Store K)
    (data : List (NewSnap K)) (now : Int) (hne : data ≠ []) :
    (∃ st1, saveCityWeatherData st data now true = some st1 ∧
      (∀ d ∈ st.current, d.key ∈ data.map NewSnap.key →
        ({ snap := d, archived_at := now, original_updated_at := d.updated_at } :
          HistoryDoc K) ∈ st1.history) ∧
      ((∃ d ∈ st.current, d.key ∈ data.map NewSnap.key) → st1.history ≠ [])) ∧
    ((∃ d ∈ st.current, d.key ∈ data.map NewSnap.key) →
      saveCityWeatherData st data now false = none) := by
  constructor
  · refine ⟨_, saveCityWeatherData_ok_eq st data now hne, ?_, ?_⟩
    · intro d hd hk
      exact List.mem_append.mpr (Or.inr (List.mem_map.mpr
        ⟨d, List.mem_filter.mpr ⟨hd, by simpa using hk⟩, rfl⟩))
    · rintro ⟨d, hd, hk⟩
      exact List.ne_nil_of_mem (List.mem_append.mpr (Or.inr (List.mem_map.mpr
        ⟨d, List.mem_filter.mpr ⟨hd, by simpa using hk⟩, rfl⟩)))
  · intro hex
    unfold saveCityWeatherData
    rw [if_neg (by simpa [List.length_eq_zero] using hne),
      archiveCityWeather_throw st _ now hex]

/-- Witness for C1: with one stored snapshot for `jakarta` and a new snapshot
for the same key, a save whose archival insert throws returns `none` — nothing
is written. -/
theorem saveCityWeatherData_archive_before_write_witness :
    saveCityWeatherData (K := String) ⟨[⟨"jakarta", some "old", 5⟩], []⟩
      [⟨"jakarta", some "new"⟩] 10 false = none :=
  (saveCityWeatherData_archive_before_write ⟨[⟨"jakarta", some "old", 5⟩], []⟩
      [⟨"jakarta", some "new"⟩] 10 (by decide)).2
    ⟨⟨"jakarta", some "old", 5⟩, by decide, by decide⟩

/- ===================== claim C8 ===================== -/

/-- C8 (write protocol per class): for the port (and city) classes a save is
an upsert keyed by identity — pre-existing snapshots of identities absent from
the new set are left in place, every current snapshot of a written identity
carries the new `updated_at`, and every new identity is present afterwards
(insert if absent, overwrite if present; the `Nodup` hypothesis is the store's
unique index on the identity key) — while for the grid class the save is a
full-collection replace: the resulting current collection is exactly the new
set. -/
theorem save_write_protocol {K2 : Type} [DecidableEq K2] (stP : Store K)
    (dataP : List (NewSnap K)) (stG : Store K2) (dataG : List (NewSnap K2))
    (now : Int) (hP : dataP ≠ [])
    (hnd : (stP.current.map WeatherDoc.key).Nodup) (hG : dataG ≠ []) :
    (∃ st1, savePortWeatherData stP dataP now true = some st1 ∧
      (∀ d ∈ stP.current, d.key ∉ dataP.map NewSnap.key → d ∈ st1.current) ∧
      (∀ d ∈ st1.current, d.key ∈ dataP.map NewSnap.key → d.updated_at = now) ∧
      (∀ s ∈ dataP, ∃ d ∈ st1.current, d.key = s.key ∧ d.updated_at = now)) ∧
    (∃ st2, saveGridWeatherData stG dataG now true = some st2 ∧
      st2.current = dataG.map (fun s =>
        ({ key := s.key, payload := s.payload, updated_at := now } : WeatherDoc K2))) := by
  constructor
  · refine ⟨_, savePortWeatherData_ok_eq stP dataP now hP, ?_, ?_, ?_⟩
    · intro d hd hk
      show d ∈ dataP.foldl
        (fun cur s => upsertOne cur { key := s.key, payload := s.payload, updated_at := now })
        stP.current
      rw [← List.foldl_map
        (fun s : NewSnap K =>
          ({ key := s.key, payload := s.payload, updated_at := now } : WeatherDoc K))
        upsertOne]
      refine mem_foldl_upsertOne_of_notkey _ _ d hd ?_
      intro e hemem hcon
      obtain ⟨s, hs, rfl⟩ := List.mem_map.mp hemem
      exact hk (hcon ▸ List.mem_map.mpr ⟨s, hs, rfl⟩)
    · intro d hd hk
      have hd2 : d ∈ (dataP.map (fun s : NewSnap K =>
          ({ key := s.key, payload := s.payload, updated_at := now } : WeatherDoc K))).foldl
            upsertOne stP.current := by
        rw [List.foldl_map]
        exact hd
      have hk' : d.key ∈ (dataP.map (fun s : NewSnap K =>
          ({ key := s.key, payload := s.payload, updated_at := now } : WeatherDoc K))).map
            WeatherDoc.key := by
        simpa [List.map_map, Function.comp] using hk
      have hmem := mem_ds_of_mem_foldl_upsertOne _ stP.current d hnd hd2 hk'
      obtain ⟨s, _, rfl⟩ := List.mem_map.mp hmem
      rfl
    · intro s hs
      have h := foldl_upsertOne_key_present
        (dataP.map (fun s : NewSnap K =>
          ({ key := s.key, payload := s.payload, updated_at := now } : WeatherDoc K)))
        (fun d => d.updated_at = now)
        (by
          intro e he
          obtain ⟨t, _, rfl⟩ := List.mem_map.mp he
          rfl)
        stP.current
        ({ key := s.key, payload := s.payload, updated_at := now })
        (List.mem_map.mpr ⟨s, hs, rfl⟩)
      rw [List.foldl_map
        (fun s : NewSnap K =>
          ({ key := s.key, payload := s.payload, updated_at := now } : WeatherDoc K))
        upsertOne] at h
      exact h
  · exact ⟨_, saveGridWeatherData_ok_eq stG dataG now hG, rfl⟩

/-- Witness for C8: one stored port snapshot for `benoa` and a new snapshot
for `sabang` exercise the upsert conjuncts; one stored grid snapshot at
`(0, 0)` replaced by a new set at `(1, 1)` exercises the full replace. -/
theorem save_write_protocol_witness :
    (∃ st1, savePortWeatherData (K := String) ⟨[⟨"benoa", some "old", 1⟩], []⟩
        [⟨"sabang", some "w"⟩] 9 true = some st1 ∧
      (∀ d ∈ (⟨[⟨"benoa", some "old", 1⟩], []⟩ : Store String).current,
        d.key ∉ [(⟨"sabang", some "w"⟩ : NewSnap String)].map NewSnap.key →
          d ∈ st1.current) ∧
      (∀ d ∈ st1.current,
        d.key ∈ [(⟨"sabang", some "w"⟩ : NewSnap String)].map NewSnap.key →
          d.updated_at = 9) ∧
      (∀ s ∈ [(⟨"sabang", some "w"⟩ : NewSnap String)],
        ∃ d ∈ st1.current, d.key = s.key ∧ d.updated_at = 9)) ∧
    (∃ st2, saveGridWeatherData (K := Int × Int) ⟨[⟨(0, 0), some "a", 1⟩], []⟩
        [⟨(1, 1), some "b"⟩] 9 true = some st2 ∧
      st2.current = [(⟨(1, 1), some "b"⟩ : NewSnap (Int × Int))].map (fun s =>
        ({ key := s.key, payload := s.payload, updated_at := 9 } :
          WeatherDoc (Int × Int)))) :=
  save_write_protocol ⟨[⟨"benoa", some "old", 1⟩], []⟩ [⟨"sabang", some "w"⟩]
    ⟨[⟨(0, 0), some "a", 1⟩], []⟩ [⟨(1, 1), some "b"⟩] 9
    (by decide) (by decide) (by decide)

/- ===================== claim C10 ===================== -/

/-- C10 (grid silent data loss): a grid save archives only the currently
stored grid snapshots whose key matches some new snapshot, yet deletes every
currently stored grid snapshot before inserting the new set; hence a current
grid snapshot whose key appears in no new snapshot is gone from the resulting
current collection and no history record for its key exists afterwards (given
none existed before). -/
theorem saveGridWeatherData_silent_loss (st : Store K) (data : List (NewSnap K))
    (now : Int) (d : WeatherDoc K) (hne : data ≠ []) (_hd : d ∈ st.current)
    (hk : d.key ∉ data.map NewSnap.key)
    (hh : ∀ h ∈ st.history, h.snap.key ≠ d.key) :
    ∃ st2, saveGridWeatherData st data now true = some st2 ∧
      d ∉ st2.current ∧ (∀ h ∈ st2.history, h.snap.key ≠ d.key) := by
  refine ⟨_, saveGridWeatherData_ok_eq st data now hne, ?_, ?_⟩
  · intro hmem
    obtain ⟨s, hs, heq⟩ := List.mem_map.mp hmem
    exact hk (congrArg WeatherDoc.key heq ▸ List.mem_map.mpr ⟨s, hs, rfl⟩)
  · intro h hmem
    rcases List.mem_append.mp hmem with h1 | h2
    · exact hh h h1
    · obtain ⟨f, hf, rfl⟩ := List.mem_map.mp h2
      intro hcon
      have hfk : f.key ∈ data.map NewSnap.key := by
        simpa using (List.mem_filter.mp hf).2
      exact hk (hcon ▸ hfk)

/-- Witness for C10: a stored grid snapshot at `(0, 0)` vanishes without any
history record when the new set only contains `(1, 1)`. -/
theorem saveGridWeatherData_silent_loss_witness :
    ∃ st2, saveGridWeatherData (K := Int × Int) ⟨[⟨(0, 0), some "a", 1⟩], []⟩
        [⟨(1, 1), some "b"⟩] 2 true = some st2 ∧
      (⟨(0, 0), some "a", 1⟩ : WeatherDoc (Int × Int)) ∉ st2.current ∧
      (∀ h ∈ st2.history,
        h.snap.key ≠ ((⟨(0, 0), some "a", 1⟩ : WeatherDoc (Int × Int))).key) :=
  saveGridWeatherData_silent_loss ⟨[⟨(0, 0), some "a", 1⟩], []⟩
    [⟨(1, 1), some "b"⟩] 2 ⟨(0, 0), some "a", 1⟩
    (by decide) (by decide) (by decide) (by decide)

/- ===================== lemmas: port fetcher ===================== -/

theorem fetchPortWeather_spec (p : Port) (r : ProviderResult) (now : Int) :
    (fetchPortWeather p r now).slug = p.slug ∧
    ((fetchPortWeather p r now).status = "success" ∨
     (fetchPortWeather p r now).status = "failed" ∨
     (fetchPortWeather p r now).status = "error") ∧
    ((fetchPortWeather p r now).status ≠ "success" →
      (fetchPortWeather p r now).weather_data = none ∧
      (fetchPortWeather p r now).error ≠ none) ∧
    (∀ s d, r = ProviderResult.resolved s d →
      ((fetchPortWeather p r now).status = "success" ↔ s = 200 ∧ d.isSome)) ∧
    (∀ m, r = ProviderResult.rejected m →
      (fetchPortWeather p r now).status = "error" ∧
      (fetchPortWeather p r now).error = some m) := by
  cases r with
  | resolved s d =>
    by_cases hc : s = 200 ∧ d.isSome
    · refine ⟨by simp [fetchPortWeather, hc], Or.inl (by simp [fetchPortWeather, hc]),
        fun hne => absurd (by simp [fetchPortWeather, hc]) hne, ?_,
        fun m h' => by cases h'⟩
      intro s' d' h'
      obtain ⟨rfl, rfl⟩ : s = s' ∧ d = d' := by
        injection h' with h1 h2
        exact ⟨h1, h2⟩
      simp [fetchPortWeather, hc]
    · refine ⟨by simp [fetchPortWeather, hc],
        Or.inr (Or.inl (by simp [fetchPortWeather, hc])),
        fun _ => ⟨by simp [fetchPortWeather, hc], by simp [fetchPortWeather, hc]⟩, ?_,
        fun m h' => by cases h'⟩
      intro s' d' h'
      obtain ⟨rfl, rfl⟩ : s = s' ∧ d = d' := by
        injection h' with h1 h2
        exact ⟨h1, h2⟩
      simp [fetchPortWeather, hc]
  | rejected m =>
    refine ⟨rfl, Or.inr (Or.inr rfl), ?_, ?_, ?_⟩
    · intro _
      exact ⟨rfl, by simp [fetchPortWeather]⟩
    · intro s' d' h'
      cases h'
    · intro m' h'
      injection h' with h1
      subst h1
      exact ⟨rfl, rfl⟩

/- ===================== claim C3 ===================== -/

/-- C3 counterexample (against the claim as stated): a resolved response with
the 2xx status 201 and data present is tagged `failed`, not `success` — the
code requires status exactly 200. -/
theorem fetchPortWeather_2xx_not_success :
    (fetchPortWeather ⟨"Pelabuhan Sabang", "pelabuhan-sabang", 5, 95⟩
      (ProviderResult.resolved 201 (some "payload")) 0).status = "failed" ∧
    (fetchPortWeather ⟨"Pelabuhan Sabang", "pelabuhan-sabang", 5, 95⟩
      (ProviderResult.resolved 201 (some "payload")) 0).status ≠ "success" := by
  exact ⟨by decide, by decide⟩

/-- C3 (amended per-item fetcher totality): the per-item loop yields exactly
one snapshot per input location and never aborts; a snapshot is `success`
exactly on a resolved response with status exactly 200 and truthy data,
`error` with the thrown message recorded on a transport error, and `failed`
on every other resolved response; every non-`success` snapshot has a null
`weather_data` and non-null error text. -/
theorem collectPortWeather_totality (ports : List Port)
    (provider : Port → ProviderResult) (now : Int) :
    (collectPortWeather ports provider now).length = ports.length ∧
    (∀ p ∈ ports,
      fetchPortWeather p (provider p) now ∈ collectPortWeather ports provider now) ∧
    (∀ p, (fetchPortWeather p (provider p) now).slug = p.slug ∧
      ((fetchPortWeather p (provider p) now).status = "success" ∨
       (fetchPortWeather p (provider p) now).status = "failed" ∨
       (fetchPortWeather p (provider p) now).status = "error") ∧
      ((fetchPortWeather p (provider p) now).status ≠ "success" →
        (fetchPortWeather p (provider p) now).weather_data = none ∧
        (fetchPortWeather p (provider p) now).error ≠ none) ∧
      (∀ s d, provider p = ProviderResult.resolved s d →
        ((fetchPortWeather p (provider p) now).status = "success" ↔
          s = 200 ∧ d.isSome)) ∧
      (∀ m, provider p = ProviderResult.rejected m →
        (fetchPortWeather p (provider p) now).status = "error" ∧
        (fetchPortWeather p (provider p) now).error = some m)) :=
  ⟨List.length_map _ _,
   fun p hp => List.mem_map.mpr ⟨p, hp, rfl⟩,
   fun p => fetchPortWeather_spec p (provider p) now⟩

/-- Witness for C3 at a three-port list with an always-rejecting provider:
three snapshots, each tagged `error` with the thrown message recorded. -/
theorem collectPortWeather_totality_witness :
    (collectPortWeather
        [⟨"Sabang", "sabang", 5, 95⟩, ⟨"Benoa", "benoa", -8, 115⟩,
         ⟨"Ambon", "ambon", -3, 128⟩]
        (fun _ => ProviderResult.rejected "timeout of 30000ms exceeded") 0).length = 3 ∧
    (fetchPortWeather ⟨"Benoa", "benoa", -8, 115⟩
        ((fun _ => ProviderResult.rejected "timeout of 30000ms exceeded")
          (⟨"Benoa", "benoa", -8, 115⟩ : Port)) 0).status = "error" ∧
    (fetchPortWeather ⟨"Benoa", "benoa", -8, 115⟩
        ((fun _ => ProviderResult.rejected "timeout of 30000ms exceeded")
          (⟨"Benoa", "benoa", -8, 115⟩ : Port)) 0).error =
      some "timeout of 30000ms exceeded" := by
  refine ⟨?_, ?_, ?_⟩
  · exact ((collectPortWeather_totality
      [⟨"Sabang", "sabang", 5, 95⟩, ⟨"Benoa", "benoa", -8, 115⟩,
       ⟨"Ambon", "ambon", -3, 128⟩]
      (fun _ => ProviderResult.rejected "timeout of 30000ms exceeded") 0).1).trans
      (by decide)
  · exact (((collectPortWeather_totality
      [⟨"Sabang", "sabang", 5, 95⟩, ⟨"Benoa", "benoa", -8, 115⟩,
       ⟨"Ambon", "ambon", -3, 128⟩]
      (fun _ => ProviderResult.rejected "timeout of 30000ms exceeded") 0).2.2
      ⟨"Benoa", "benoa", -8, 115⟩).2.2.2.2 "timeout of 30000ms exceeded" rfl).1
  · exact (((collectPortWeather_totality
      [⟨"Sabang", "sabang", 5, 95⟩, ⟨"Benoa", "benoa", -8, 115⟩,
       ⟨"Ambon", "ambon", -3, 128⟩]
      (fun _ => ProviderResult.rejected "timeout of 30000ms exceeded") 0).2.2
      ⟨"Benoa", "benoa", -8, 115⟩).2.2.2.2 "timeout of 30000ms exceeded" rfl).2

/- ===================== lemmas: grid retry loop ===================== -/

theorem range_map_pow_double (R delay : Nat) :
    (List.range (R + 1)).map (fun j => delay * 2 ^ j) =
      delay :: (List.range R).map (fun j => delay * 2 * 2 ^ j) := by
  rw [List.range_succ_eq_map, List.map_cons, List.map_map]
  refine congrArg₂ _ (by simp) ?_
  apply List.map_congr_left
  intro j _
  simp only [Function.comp_apply, pow_succ]
  ring

theorem runBatchRetriesGo_all_rl (attempt : Nat → AttemptOutcome) :
    ∀ (R retry delay : Nat),
      (∀ j, retry ≤ j → j < retry + R →
        ∃ m, attempt j = AttemptOutcome.thrown m ∧ isRateLimitError m = true) →
      runBatchRetriesGo attempt retry R delay =
        { result := none, sleeps := (List.range R).map (fun j => delay * 2 ^ j),
          attempts := R } := by
  intro R
  induction R with
  | zero => intro retry delay _; simp [runBatchRetriesGo]
  | succ R ih =>
    intro retry delay hall
    obtain ⟨m, hm, hrl⟩ := hall retry (le_refl _) (by omega)
    simp only [runBatchRetriesGo, hm, hrl, if_true]
    rw [ih (retry + 1) (delay * 2) (fun j hj1 hj2 => hall j (by omega) (by omega))]
    rw [range_map_pow_double]

theorem runBatchRetriesGo_all_other (attempt : Nat → AttemptOutcome) :
    ∀ (R retry delay : Nat),
      (∀ j, retry ≤ j → j < retry + R →
        ∃ m, attempt j = AttemptOutcome.thrown m ∧ isRateLimitError m = false) →
      runBatchRetriesGo attempt retry R delay =
        { result := none, sleeps := [], attempts := R } := by
  intro R
  induction R with
  | zero => intro retry delay _; simp [runBatchRetriesGo]
  | succ R ih =>
    intro retry delay hall
    obtain ⟨m, hm, hrl⟩ := hall retry (le_refl _) (by omega)
    simp only [runBatchRetriesGo, hm, hrl, if_false, Bool.false_eq_true]
    rw [ih (retry + 1) delay (fun j hj1 hj2 => hall j (by omega) (by omega))]

theorem foldl_collect (g : Nat → Option (List GridRow)) (l : List Nat) :
    ∀ acc, l.foldl
        (fun a i => match g i with | some rows => a ++ rows | none => a) acc =
      acc ++ (l.map (fun i => (g i).getD [])).flatten := by
  induction l with
  | nil => intro acc; simp
  | cons i is ih =>
    intro acc
    rw [List.foldl_cons, ih, List.map_cons, List.flatten_cons, ← List.append_assoc]
    congr 1
    cases h : g i <;> simp [h]

/- ===================== claim C2 ===================== -/

/-- C2 counterexample (against the claim as stated): with three attempts all
throwing a non-rate-limit error, the batch retry loop re-issues the batch
three times but performs zero backoff sleeps — not the claimed backoff
schedule `[60000, 120000]` between the three attempts. -/
theorem gridRetry_no_backoff_for_other_errors :
    (runBatchRetries (fun _ => AttemptOutcome.thrown "socket hang up") 3).attempts = 3 ∧
    (runBatchRetries (fun _ => AttemptOutcome.thrown "socket hang up") 3).sleeps = [] ∧
    ([] : List Nat) ≠ [60000, 120000] := by
  exact ⟨by decide, by decide, by decide⟩

/-- C2 (amended batched-fetcher retry policy): thrown errors classified as
rate-limiting sleep with exponential backoff (base 60000 ms, doubled each
rate-limited retry) before the batch is re-issued, up to the retry budget `R`;
any other thrown error is logged distinctly and the batch re-issued
immediately with no backoff sleep, up to the same budget; after `R` exhausted
attempts the batch is dropped, and the overall output is the concatenation of
the successful batches' rows in batch order — dropped batches contribute
nothing and later batches are still processed. -/
theorem fetchWeatherDataBatched_retry_policy (R : Nat)
    (attempt : Nat → AttemptOutcome) (locations : List GridLoc)
    (batchSize : Nat) (oracle : Nat → Nat → AttemptOutcome) :
    ((∀ j, j < R → ∃ m, attempt j = AttemptOutcome.thrown m ∧
        isRateLimitError m = true) →
      runBatchRetries attempt R =
        { result := none, sleeps := (List.range R).map (fun j => 60000 * 2 ^ j),
          attempts := R }) ∧
    ((∀ j, j < R → ∃ m, attempt j = AttemptOutcome.thrown m ∧
        isRateLimitError m = false) →
      runBatchRetries attempt R = { result := none, sleeps := [], attempts := R }) ∧
    fetchWeatherDataBatched locations batchSize R oracle =
      ((List.range (batchArray locations batchSize).length).map
        (fun i => ((runBatchRetries (oracle i) R).result).getD [])).flatten := by
  refine ⟨?_, ?_, ?_⟩
  · intro hall
    exact runBatchRetriesGo_all_rl attempt R 0 60000
      (fun j hj1 hj2 => hall j (by omega))
  · intro hall
    exact runBatchRetriesGo_all_other attempt R 0 60000
      (fun j hj1 hj2 => hall j (by omega))
  · unfold fetchWeatherDataBatched
    rw [foldl_collect (fun i => (runBatchRetries (oracle i) R).result)]
    simp

/-- Witness for C2: three rate-limited attempts sleep `[60000, 120000, 240000]`
before dropping the batch; three attempts with a transport error sleep not at
all before dropping it. -/
theorem fetchWeatherDataBatched_retry_policy_witness :
    runBatchRetries (fun _ => AttemptOutcome.thrown "Rate limit exceeded") 3 =
      { result := none, sleeps := (List.range 3).map (fun j => 60000 * 2 ^ j),
        attempts := 3 } ∧
    runBatchRetries (fun _ => AttemptOutcome.thrown "socket hang up") 3 =
      { result := none, sleeps := [], attempts := 3 } :=
  ⟨(fetchWeatherDataBatched_retry_policy 3
      (fun _ => AttemptOutcome.thrown "Rate limit exceeded") [] 1
      (fun _ _ => AttemptOutcome.thrown "x")).1
      (fun j _ => ⟨"Rate limit exceeded", rfl, by decide⟩),
   (fetchWeatherDataBatched_retry_policy 3
      (fun _ => AttemptOutcome.thrown "socket hang up") [] 1
      (fun _ _ => AttemptOutcome.thrown "x")).2.1
      (fun j _ => ⟨"socket hang up", rfl, by decide⟩)⟩

/- ===================== lemmas: orchestrator retry ===================== -/

theorem retryWithBackoffGo_all_fail (outcome : Nat → Nat) (base : Nat) :
    ∀ (R attempt : Nat), 1 ≤ attempt →
      (∀ a, attempt ≤ a → a < attempt + R → outcome a ≠ 0) →
      retryWithBackoffGo outcome base attempt R =
        (false, (List.range (R - 1)).map (fun j => base * 2 ^ (attempt - 1 + j))) := by
  intro R
  induction R with
  | zero => intro attempt _ _; simp [retryWithBackoffGo]
  | succ R ih =>
    intro attempt ha hall
    unfold retryWithBackoffGo
    rw [if_neg (hall attempt (le_refl _) (by omega))]
    by_cases hR : R = 0
    · subst hR
      rw [if_pos rfl]
      simp
    · rw [if_neg hR,
        ih (attempt + 1) (by omega) (fun a ha1 ha2 => hall a (by omega) (by omega))]
      show (false, base * 2 ^ (attempt - 1) ::
          List.map (fun j => base * 2 ^ (attempt + 1 - 1 + j)) (List.range (R - 1))) =
        (false, List.map (fun j => base * 2 ^ (attempt - 1 + j)) (List.range (R + 1 - 1)))
      have hr : R + 1 - 1 = R := by omega
      have hsplit : R = (R - 1) + 1 := by omega
      rw [hr]
      conv_rhs => rw [hsplit]
      rw [List.range_succ_eq_map, List.map_cons, List.map_map]
      refine congrArg (Prod.mk false) (congrArg₂ List.cons ?_ ?_)
      · norm_num
      · apply List.map_congr_left
        intro j _
        simp only [Function.comp_apply, Nat.succ_eq_add_one]
        have e : attempt + 1 - 1 + j = attempt - 1 + (j + 1) := by omega
        rw [e]

theorem filter_length_eq_length_iff {α : Type} (p : α → Bool) (l : List α) :
    (l.filter p).length = l.length ↔ ∀ a ∈ l, p a := by
  induction l with
  | nil => simp
  | cons a t ih =>
    cases h : p a <;> simp [List.filter_cons, h, ih]
    · have := List.length_filter_le p t
      omega

/- ===================== claim C9 ===================== -/

/-- C9 counterexample (against the claim as stated): a collector failing all
three attempts is retried with sleeps `[5000, 10000]` — the delay doubles, it
is not a fixed delay between attempts (`[5000, 5000]`). -/
theorem orchestratorRetry_not_fixed_delay :
    (retryWithBackoff (fun _ => 1) 3 5000).2 = [5000, 10000] ∧
    [5000, 10000] ≠ [5000, 5000] := by
  exact ⟨by decide, by decide⟩

/-- C9 (amended orchestrator contract): the three class flows run strictly
sequentially with a 5000 ms pause between consecutive classes; on internal
failure a class's flow is retried up to the fixed retry count with an
exponentially increasing delay between attempts (base delay doubled each
retry, `base * 2 ^ j`); the exit code is 0 exactly when every class
ultimately succeeded; and a per-class report entry exists for every class
even on partial success. -/
theorem runAllCollectors_orchestration (outcome : Nat → Nat → Nat) (R : Nat)
    (out1 : Nat → Nat) (base : Nat) (R1 : Nat) :
    ((runAllCollectors outcome R).results.length = collectorNames.length) ∧
    ((runAllCollectors outcome R).pauses = [5000, 5000]) ∧
    ((runAllCollectors outcome R).exitCode = 0 ↔
      ∀ r ∈ (runAllCollectors outcome R).results, r.2 = true) ∧
    (1 ≤ R1 → (∀ a, 1 ≤ a → a ≤ R1 → out1 a ≠ 0) →
      retryWithBackoff out1 R1 base =
        (false, (List.range (R1 - 1)).map (fun j => base * 2 ^ j))) := by
  refine ⟨?_, rfl, ?_, ?_⟩
  · simp [runAllCollectors]
  · show (if ((collectorNames.enum.map (fun pair =>
        (pair.2, (runCollectorWithRetry (outcome pair.1) R).1))).filter
          (fun r => r.2)).length =
        (collectorNames.enum.map (fun pair =>
          (pair.2, (runCollectorWithRetry (outcome pair.1) R).1))).length
        then 0 else 1) = 0 ↔
      ∀ r ∈ collectorNames.enum.map (fun pair =>
        (pair.2, (runCollectorWithRetry (outcome pair.1) R).1)), r.2 = true
    rw [← filter_length_eq_length_iff (fun r => r.2)
      (collectorNames.enum.map (fun pair =>
        (pair.2, (runCollectorWithRetry (outcome pair.1) R).1)))]
    constructor
    · intro h
      by_contra hcon
      rw [if_neg hcon] at h
      cases h
    · intro h
      rw [if_pos h]
  · intro h1 hall
    have := retryWithBackoffGo_all_fail out1 base R1 1 (le_refl _)
      (fun a ha1 ha2 => hall a ha1 (by omega))
    rw [retryWithBackoff, this]
    refine congrArg _ (List.map_congr_left ?_)
    intro j _
    norm_num

/-- Witness for C9: with every collector succeeding the report has one entry
per class, and a collector failing all three attempts follows the doubling
backoff schedule `[5000, 10000]`. -/
theorem runAllCollectors_orchestration_witness :
    (runAllCollectors (fun _ _ => 0) 3).results.length = collectorNames.length ∧
    retryWithBackoff (fun _ => 1) 3 5000 =
      (false, (List.range (3 - 1)).map (fun j => 5000 * 2 ^ j)) :=
  ⟨(runAllCollectors_orchestration (fun _ _ => 0) 3 (fun _ => 1) 5000 3).1,
   (runAllCollectors_orchestration (fun _ _ => 0) 3 (fun _ => 1) 5000 3).2.2.2
     (by decide) (fun a _ _ => by decide)⟩

end WeatherMap
